import Mathlib

/-!
Verification of the r3d frame-rendering pipeline and custom-shader subsystem.

Shallow embedding of `src/r3d_draw.c` and `src/r3d_shader_custom.c`
(together with the data declarations of `include/r3d/r3d_shader.h` and
`include/r3d/r3d_material.h`) into Lean.

Modelling conventions:
* C strings are `List Char`; `strcmp` equality is list equality, `strncpy`
  with a zero-initialised destination of size 64 stores `take 63`.
* 32-bit float values are carried as opaque bit patterns (`Nat`).  The
  modelled code never performs arithmetic on them - only stores and copies -
  so the representation is exact ("bit-for-bit").
* GPU calls are reified as a trace (`GLCall` lists, pass token lists).
* A null-pointer dereference in the C source is modelled by an `Option`
  result of `none`.
-/

namespace R3D

/-- 32-bit float bit pattern.  The embedded code only copies these values. -/
abbrev F32 := Nat

/-- `R3D_ParamType` from `include/r3d/r3d_shader.h`. -/
inductive R3D_ParamType where
  | float
  | vec2
  | vec3
  | vec4
  | tex2d
deriving DecidableEq, Repr

/-- The value union of `R3D_MaterialParam`.  The C union overlays a float,
float[2..4] and a `Texture2D`; we model the four float words and the texture
id as separate fields, all zero-initialised (the C code `memset`s the param
to zero on creation).  The byte aliasing between the texture struct and the
float array is never read across types by the code paths modelled here. -/
structure ParamValue where
  w0 : F32 := 0
  w1 : F32 := 0
  w2 : F32 := 0
  w3 : F32 := 0
  texId : Nat := 0
deriving DecidableEq, Repr

/-- `R3D_MaterialParam` from `include/r3d/r3d_shader.h`:
name (char[64]), type tag, value union. -/
structure R3D_MaterialParam where
  name : List Char
  type : R3D_ParamType
  value : ParamValue
deriving DecidableEq, Repr

/-- The custom-shader-parameter part of `R3D_Material`
(`include/r3d/r3d_material.h`): the dynamically grown `params` array with
`paramCount` (the list length here) and `paramCapacity`.  A capacity of `0`
encodes `params == NULL`. -/
structure R3D_Material where
  params : List R3D_MaterialParam
  paramCapacity : Nat
deriving DecidableEq, Repr

/-- `R3D_MAX_UNIFORM_NAME_LENGTH` (64) from `include/r3d/r3d_shader.h`. -/
def R3D_MAX_UNIFORM_NAME_LENGTH : Nat := 64

/-- `strncpy(dst, name, R3D_MAX_UNIFORM_NAME_LENGTH - 1)` into a
zero-initialised 64-byte buffer: keeps the first 63 characters. -/
def trunc63 (s : List Char) : List Char :=
  s.take (R3D_MAX_UNIFORM_NAME_LENGTH - 1)

/-- Index of the first element satisfying `p` (the linear search pattern of
the C loops below). -/
def findFirstIdx {α : Type} (p : α → Bool) : List α → Option Nat
  | [] => none
  | x :: xs => if p x then some 0 else (findFirstIdx p xs).map (· + 1)

/-- In-place update of the element at index `i` (writing through the pointer
returned by `FindOrCreateParam`). -/
def modifyAt {α : Type} (f : α → α) (i : Nat) (l : List α) : List α :=
  match l, i with
  | [], _ => []
  | x :: xs, 0 => f x :: xs
  | x :: xs, n + 1 => x :: modifyAt f n xs

/-- The search loop of `FindOrCreateParam`: index of the first stored
parameter whose name `strcmp`-equals the (full, untruncated) query name. -/
def findParamIdx (m : R3D_Material) (name : List Char) : Option Nat :=
  findFirstIdx (fun p => p.name == name) m.params

/-- The capacity-growth step of `FindOrCreateParam`: first allocation has
capacity 4, a full array doubles. -/
def growCapacity (m : R3D_Material) : Nat :=
  if m.paramCapacity = 0 then 4
  else if m.paramCapacity ≤ m.params.length then 2 * m.paramCapacity
  else m.paramCapacity

/-- `FindOrCreateParam` (`src/r3d_shader_custom.c`): returns the material
(possibly with a fresh zeroed parameter appended, name truncated to 63
characters) and the index of the found-or-created parameter.  Note: on the
"found" path the existing parameter's type tag is NOT rewritten. -/
def findOrCreateParam (m : R3D_Material) (name : List Char) (ty : R3D_ParamType) :
    R3D_Material × Nat :=
  match findParamIdx m name with
  | some i => (m, i)
  | none =>
      ({ params := m.params ++ [⟨trunc63 name, ty, {}⟩],
         paramCapacity := growCapacity m }, m.params.length)

/-- Common shape of the five `R3D_SetMaterial*` setters: find-or-create a
parameter and overwrite (only) the relevant field(s) of its value union. -/
def setParamWith (m : R3D_Material) (name : List Char) (ty : R3D_ParamType)
    (write : ParamValue → ParamValue) : R3D_Material :=
  let fc := findOrCreateParam m name ty
  { fc.1 with params := modifyAt (fun p => { p with value := write p.value }) fc.2 fc.1.params }

/-- `R3D_SetMaterialFloat` (the null-material/null-name guards of the C
function are outside this model: a material and a name are given). -/
def setMaterialFloat (m : R3D_Material) (name : List Char) (v : F32) : R3D_Material :=
  setParamWith m name .float (fun w => { w with w0 := v })

/-- `R3D_SetMaterialVec2`. -/
def setMaterialVec2 (m : R3D_Material) (name : List Char) (x y : F32) : R3D_Material :=
  setParamWith m name .vec2 (fun w => { w with w0 := x, w1 := y })

/-- `R3D_SetMaterialVec3`. -/
def setMaterialVec3 (m : R3D_Material) (name : List Char) (x y z : F32) : R3D_Material :=
  setParamWith m name .vec3 (fun w => { w with w0 := x, w1 := y, w2 := z })

/-- `R3D_SetMaterialVec4`. -/
def setMaterialVec4 (m : R3D_Material) (name : List Char) (x y z w : F32) : R3D_Material :=
  setParamWith m name .vec4 (fun u => { u with w0 := x, w1 := y, w2 := z, w3 := w })

/-- `R3D_SetMaterialTexture`. -/
def setMaterialTexture (m : R3D_Material) (name : List Char) (tex : Nat) : R3D_Material :=
  setParamWith m name .tex2d (fun w => { w with texId := tex })

/-- `R3D_UniformInfo` from `include/r3d/r3d_shader.h`: a discovered custom
uniform (truncated name, GL location, type tag, texture slot; `-1` for
non-samplers). -/
structure R3D_UniformInfo where
  name : List Char
  location : Int
  type : R3D_ParamType
  texSlot : Int
deriving DecidableEq, Repr

/-- The custom-uniform table of `struct R3D_Shader`
(`src/r3d_shader_custom.c`): `customUniforms` up to `customUniformCount`. -/
structure R3D_Shader where
  customUniforms : List R3D_UniformInfo
deriving DecidableEq, Repr

/-- One reified OpenGL call issued by the draw-time bind path. -/
inductive GLCall where
  | uniform1f (loc : Int) (x : F32)
  | uniform2fv (loc : Int) (x y : F32)
  | uniform3fv (loc : Int) (x y z : F32)
  | uniform4fv (loc : Int) (x y z w : F32)
  | activeTexture (slot : Int)
  | bindTexture2D (id : Nat)
deriving DecidableEq, Repr

/-- The material-parameter search inside `R3D_BindCustomUniforms`: first
stored parameter whose name equals the discovered uniform's name. -/
def findMatchingParam (mat : R3D_Material) (uname : List Char) :
    Option R3D_MaterialParam :=
  mat.params.find? (fun p => p.name == uname)

/-- One iteration of the loop in `R3D_BindCustomUniforms`
(`src/r3d_shader_custom.c`): if the material has a same-named parameter it is
bound with the GL call selected by the SHADER's declared type (`info->type`);
the stored parameter's own type tag is never consulted.  A uniform with no
matching parameter issues nothing. -/
def bindOne (mat : R3D_Material) (info : R3D_UniformInfo) : List GLCall :=
  match findMatchingParam mat info.name with
  | none => []
  | some p =>
      match info.type with
      | .float => [.uniform1f info.location p.value.w0]
      | .vec2 => [.uniform2fv info.location p.value.w0 p.value.w1]
      | .vec3 => [.uniform3fv info.location p.value.w0 p.value.w1 p.value.w2]
      | .vec4 => [.uniform4fv info.location p.value.w0 p.value.w1 p.value.w2 p.value.w3]
      | .tex2d => [.activeTexture info.texSlot, .bindTexture2D p.value.texId]

/-- `R3D_BindCustomUniforms`: the GL calls issued for all discovered custom
uniforms of the shader, in table order. -/
def bindCustomUniforms (shader : R3D_Shader) (mat : R3D_Material) : List GLCall :=
  (shader.customUniforms.map (bindOne mat)).flatten

/-! ### Custom-uniform discovery (`discover_custom_uniforms`) -/

/-- GL-reported uniform type, as consumed by the `switch` in
`discover_custom_uniforms`.  `other` stands for every GLenum the switch's
`default:` branch drops. -/
inductive GLUniformType where
  | float
  | vec2
  | vec3
  | vec4
  | sampler2D
  | other
deriving DecidableEq, Repr

/-- One active uniform as enumerated by `glGetActiveUniform` /
`glGetUniformLocation` on the linked program (external collaborator): the
reported name, its location and its GL type. -/
structure ActiveUniform where
  name : List Char
  location : Int
  gltype : GLUniformType
deriving DecidableEq, Repr

/-- `R3D_MAX_CUSTOM_UNIFORMS` (16) from `include/r3d/r3d_shader.h`. -/
def R3D_MAX_CUSTOM_UNIFORMS : Nat := 16

/-- `FIRST_CUSTOM_TEX_SLOT` (5) from `src/r3d_shader_custom.c`. -/
def FIRST_CUSTOM_TEX_SLOT : Nat := 5

/-- The fixed deny-list `builtinUniforms` of `discover_custom_uniforms`. -/
def builtinUniformNames : List (List Char) :=
  [ "uTexAlbedo".toList, "uTexNormal".toList, "uTexEmission".toList,
    "uTexORM".toList, "uTexBoneMatrices".toList,
    "uAlphaCutoff".toList, "uNormalScale".toList, "uOcclusion".toList,
    "uRoughness".toList, "uMetalness".toList,
    "uAlbedoColor".toList, "uEmissionEnergy".toList, "uEmissionColor".toList,
    "uTexCoordOffset".toList, "uTexCoordScale".toList, "uInstancing".toList,
    "uSkinning".toList, "uBillboard".toList,
    "uMatModel".toList, "uMatNormal".toList, "ViewBlock".toList ]

/-- The three skip tests of `discover_custom_uniforms`: deny-listed name,
reserved `gl_` prefix, array-indexed name. -/
def skipName (n : List Char) : Bool :=
  builtinUniformNames.any (fun b => b == n)
    || "gl_".toList.isPrefixOf n
    || n.contains '['

/-- Whether the GL type is one the discovery switch registers. -/
def supportedGLType : GLUniformType → Bool
  | .float | .vec2 | .vec3 | .vec4 | .sampler2D => true
  | .other => false

/-- A uniform that `discover_custom_uniforms` registers: passes the name
filters and has a supported type. -/
def registrable (u : ActiveUniform) : Bool :=
  !skipName u.name && supportedGLType u.gltype

/-- The `for` loop of `discover_custom_uniforms`: walks the active uniforms
while `customUniformCount < R3D_MAX_CUSTOM_UNIFORMS`, skipping filtered
names; a supported uniform is appended (name truncated to 63 chars), a
sampler additionally takes the next texture slot; an unsupported type is
un-registered again (`customUniformCount--`). -/
def discoverLoop : List ActiveUniform → List R3D_UniformInfo → Nat → List R3D_UniformInfo
  | [], acc, _ => acc
  | u :: rest, acc, nextSlot =>
      if acc.length < R3D_MAX_CUSTOM_UNIFORMS then
        if skipName u.name then
          discoverLoop rest acc nextSlot
        else
          match u.gltype with
          | .float => discoverLoop rest (acc ++ [⟨trunc63 u.name, u.location, .float, -1⟩]) nextSlot
          | .vec2 => discoverLoop rest (acc ++ [⟨trunc63 u.name, u.location, .vec2, -1⟩]) nextSlot
          | .vec3 => discoverLoop rest (acc ++ [⟨trunc63 u.name, u.location, .vec3, -1⟩]) nextSlot
          | .vec4 => discoverLoop rest (acc ++ [⟨trunc63 u.name, u.location, .vec4, -1⟩]) nextSlot
          | .sampler2D =>
              discoverLoop rest
                (acc ++ [⟨trunc63 u.name, u.location, .tex2d, (nextSlot : Int)⟩]) (nextSlot + 1)
          | .other => discoverLoop rest acc nextSlot
      else acc

/-- `discover_custom_uniforms`: the resulting custom-uniform table, starting
from an empty table and `nextTexSlot = FIRST_CUSTOM_TEX_SLOT`. -/
def discoverCustomUniforms (us : List ActiveUniform) : List R3D_UniformInfo :=
  discoverLoop us [] FIRST_CUSTOM_TEX_SLOT

/-- Declarative description of the registered table: every registrable
uniform in order, samplers taking consecutive slots from `slot`.  Used to
state what discovery computes. -/
def mkInfos : List ActiveUniform → Nat → List R3D_UniformInfo
  | [], _ => []
  | u :: rest, slot =>
      match u.gltype with
      | .float => ⟨trunc63 u.name, u.location, .float, -1⟩ :: mkInfos rest slot
      | .vec2 => ⟨trunc63 u.name, u.location, .vec2, -1⟩ :: mkInfos rest slot
      | .vec3 => ⟨trunc63 u.name, u.location, .vec3, -1⟩ :: mkInfos rest slot
      | .vec4 => ⟨trunc63 u.name, u.location, .vec4, -1⟩ :: mkInfos rest slot
      | .sampler2D => ⟨trunc63 u.name, u.location, .tex2d, (slot : Int)⟩ :: mkInfos rest (slot + 1)
      | .other => mkInfos rest slot

/-- The texture slots of the sampler-typed entries of a uniform table, in
table order. -/
def samplerSlots (infos : List R3D_UniformInfo) : List Int :=
  infos.filterMap (fun i => if i.type = .tex2d then some i.texSlot else none)

/-- Number of sampler-typed uniforms in a list. -/
def samplerCount (us : List ActiveUniform) : Nat :=
  (us.filter (fun u => u.gltype == .sampler2D)).length

/-! ### User-code splitting and fragment-shader composition
(`split_user_code`, `compose_fragment_shader`) -/

/-- The whitespace skipped by `split_user_code` before the keyword test:
exactly space and tab. -/
def isSpaceTab (c : Char) : Bool := c == ' ' || c == '\t'

/-- The uniform-line test of `split_user_code`:
`strncmp(trimmed, "uniform ", 8) == 0` after skipping spaces/tabs - i.e. the
line must begin, after space/tab trimming, with the literal eight characters
`uniform` followed by a SPACE. -/
def isUniformLine (line : List Char) : Bool :=
  "uniform ".toList.isPrefixOf (line.dropWhile isSpaceTab)

/-- Split a character list at newline characters (the line iteration of
`split_user_code`; the C loop over `strchr(line, '\n')` produces the same
line segments, and the trailing empty segment after a final newline is
dropped by both since empty lines are discarded). -/
def splitNl : List Char → List (List Char)
  | [] => [[]]
  | c :: rest =>
      if c = '\n' then [] :: splitNl rest
      else
        match splitNl rest with
        | [] => [[c]]
        | l :: ls => (c :: l) :: ls

/-- The buffer-filling step of `split_user_code` for one line: a
uniform-keyword line (plus a restored newline) is appended to the
declarations buffer, any other non-empty line to the body buffer, empty
lines are dropped. -/
def splitStep (bufs : List Char × List Char) (line : List Char) : List Char × List Char :=
  if isUniformLine line then (bufs.1 ++ line ++ ['\n'], bufs.2)
  else if 0 < line.length then (bufs.1, bufs.2 ++ line ++ ['\n'])
  else bufs

/-- `split_user_code` (`src/r3d_shader_custom.c`): returns the
(declarations, body) buffers. -/
def split_user_code (userCode : List Char) : List Char × List Char :=
  (splitNl userCode).foldl splitStep ([], [])

/-- Index of the first occurrence of `pat` in `s` (`strstr`). -/
def findSub (pat : List Char) : List Char → Option Nat
  | [] => if pat.isEmpty then some 0 else none
  | c :: rest =>
      if pat.isPrefixOf (c :: rest) then some 0
      else (findSub pat rest).map (· + 1)

/-- Index one past the first newline at or after position `i`
(`strchr(versionStart, '\n')`, then `versionEnd++`); end of string when
there is no newline. -/
def lineEndAfter (s : List Char) (i : Nat) : Nat :=
  match ((s.drop i).findIdx? (fun c => c == '\n')) with
  | some k => i + k + 1
  | none => s.length

/-- `USER_FRAGMENT_MARKER` from `src/r3d_shader_custom.c`. -/
def USER_FRAGMENT_MARKER : List Char := "#define R3D_USER_FRAGMENT_MARKER 0".toList

/-- `compose_fragment_shader` (`src/r3d_shader_custom.c`): template prefix up
to and including the `#version` line, user uniform declarations, template
middle up to the marker, user body in place of the marker, template suffix.
Missing `#version` or marker returns `NULL` (`none`).  The C pointer
arithmetic assumes the marker does not start before the end of the
`#version` line (true of the fixed template); the natural-subtraction model
below agrees with the C code exactly on that assumption. -/
def compose_fragment_shader (base userUniforms userBody : List Char) : Option (List Char) :=
  match findSub "#version".toList base with
  | none => none
  | some vi =>
      match findSub USER_FRAGMENT_MARKER base with
      | none => none
      | some mi =>
          let ve := lineEndAfter base vi
          some (base.take ve ++ userUniforms
            ++ ((base.drop ve).take (mi - ve)) ++ userBody
            ++ base.drop (mi + USER_FRAGMENT_MARKER.length))

/-- The source-construction portion of `R3D_CreateCustomShader`: split the
user code, then compose the final fragment source from the base template. -/
def createComposedSource (base userCode : List Char) : Option (List Char) :=
  compose_fragment_shader base (split_user_code userCode).1 (split_user_code userCode).2

/-- Concatenate lines, each with a restored trailing newline (the shape in
which `split_user_code` accumulates its buffers). -/
def joinNl (ls : List (List Char)) : List Char :=
  (ls.map (fun l => l ++ ['\n'])).flatten

/-- The claim's routing predicate, as the spec words it: the line's first
non-whitespace TOKEN is `uniform` (token = maximal run of non-whitespace
characters).  This is the spec-side description to compare against
`isUniformLine`; the two differ, e.g., on a tab right after the keyword. -/
def specFirstTokenIsUniform (line : List Char) : Bool :=
  (line.dropWhile (fun c => c.isWhitespace)).takeWhile (fun c => !c.isWhitespace)
    == "uniform".toList

/-! ### Draw submission (`R3D_DrawMesh`, `R3D_DrawMeshInstancedPro`,
`R3D_DrawModelPro`, `R3D_DrawModelInstancedPro`) -/

/-- The mesh fields consulted at submission time.  `meshId` stands for the
remaining payload (vertex/index buffers, AABB, shadow mode), which the
submission guards never inspect. -/
structure r3d_mesh where
  layerMask : Nat
  meshId : Nat
deriving DecidableEq, Repr

/-- The model fields consulted by `R3D_DrawModelPro` /
`R3D_DrawModelInstancedPro`.  `modelAabb`/`skeleton`/`player` are abstract
tokens copied into the draw group. -/
structure r3d_model where
  meshes : List r3d_mesh
  meshMaterials : List Nat
  materials : List R3D_Material
  modelAabb : Nat
  skeleton : Nat
  player : Nat
deriving DecidableEq, Repr

/-- A pushed draw group (`r3d_draw_group_push`): the per-submission shared
data.  Transforms and AABBs are abstract tokens; `instTransforms = none`
models a NULL instance-transform pointer. -/
structure DrawGroupRec where
  transform : Nat
  aabb : Nat := 0
  skeleton : Nat := 0
  player : Nat := 0
  instAabb : Nat := 0
  instTransforms : Option Nat := none
  instCount : Int := 0
deriving DecidableEq, Repr

/-- A pushed draw call (`r3d_draw_call_push`): one (mesh, material) pair,
back-referencing the draw group pushed last. -/
structure DrawCallRec where
  mesh : r3d_mesh
  material : R3D_Material
  groupIdx : Nat
  isDecal : Bool
deriving DecidableEq, Repr

/-- The per-frame draw-call collector state: the pushed groups and calls
(accumulated in submission order; `r3d_draw_group_push` / `r3d_draw_call_push`
of the collector module append to these lists). -/
structure DrawState where
  groups : List DrawGroupRec
  calls : List DrawCallRec
deriving DecidableEq, Repr

/-- `r3d_draw_group_push`: append a group. -/
def pushGroup (st : DrawState) (g : DrawGroupRec) : DrawState :=
  { st with groups := st.groups ++ [g] }

/-- `r3d_draw_call_push`: append a call, associated with the most recently
pushed group. -/
def pushCall (st : DrawState) (mesh : r3d_mesh) (material : R3D_Material)
    (isDecal : Bool) : DrawState :=
  { st with calls := st.calls ++ [⟨mesh, material, st.groups.length - 1, isDecal⟩] }

/-- `R3D_GetDefaultMaterial`, as substituted for a NULL material pointer at
submission.  Its contents are irrelevant to the claims below; per
`include/r3d/r3d_material.h` it carries no custom parameters. -/
def defaultMaterial : R3D_Material := ⟨[], 0⟩

/-- `R3D_DrawMesh` (`src/r3d_draw.c`).  `layerOK` is the
`R3D_CACHE_FLAGS_HAS(layers, ...)` test of the resource cache, abstracted as
an arbitrary predicate on the mesh's layer mask.  The C function
dereferences `mesh->layerMask` with no null check, so a null mesh is a
fault (`none`); a null material is replaced by the default material and the
draw is still enqueued. -/
def drawMesh (layerOK : Nat → Bool) (mesh : Option r3d_mesh)
    (material : Option R3D_Material) (transform : Nat) (st : DrawState) :
    Option DrawState :=
  match mesh with
  | none => none
  | some m =>
      if !layerOK m.layerMask then some st
      else
        some (pushCall (pushGroup st { transform := transform }) m
          (material.getD defaultMaterial) false)

/-- `R3D_DrawMeshInstancedPro` (`src/r3d_draw.c`): same null-mesh fault;
after the layer test, a zero instance count or a null instance-transform
pointer returns with nothing enqueued; a null material is replaced by the
default material. -/
def drawMeshInstancedPro (layerOK : Nat → Bool) (mesh : Option r3d_mesh)
    (material : Option R3D_Material) (globalAabb : Option Nat) (globalTransform : Nat)
    (instanceTransforms : Option Nat) (instanceCount : Int) (st : DrawState) :
    Option DrawState :=
  match mesh with
  | none => none
  | some m =>
      if !layerOK m.layerMask then some st
      else if instanceCount = 0 || instanceTransforms = none then some st
      else
        some (pushCall
          (pushGroup st
            { transform := globalTransform, instAabb := globalAabb.getD 0,
              instTransforms := instanceTransforms, instCount := instanceCount })
          m (material.getD defaultMaterial) false)

/-- The mesh loop shared by `R3D_DrawModelPro` and
`R3D_DrawModelInstancedPro`: meshes paired with their material indices; a
mesh whose layer mask fails the test makes the function RETURN (not
`continue`), abandoning all remaining meshes. -/
def drawModelLoop (layerOK : Nat → Bool) (mats : List R3D_Material) :
    List (r3d_mesh × Nat) → DrawState → DrawState
  | [], st => st
  | (m, mi) :: rest, st =>
      if !layerOK m.layerMask then st
      else drawModelLoop layerOK mats rest
        (pushCall st m (mats.getD mi defaultMaterial) false)

/-- `R3D_DrawModelPro` (`src/r3d_draw.c`): push the group, then run the mesh
loop. -/
def drawModelPro (layerOK : Nat → Bool) (model : r3d_model) (transform : Nat)
    (st : DrawState) : DrawState :=
  drawModelLoop layerOK model.materials (model.meshes.zip model.meshMaterials)
    (pushGroup st
      { transform := transform, aabb := model.modelAabb,
        skeleton := model.skeleton, player := model.player })

/-- `R3D_DrawModelInstancedPro` (`src/r3d_draw.c`): guarded no-op for a null
model, zero count, null transforms or an empty model; otherwise push the
instanced group and run the same mesh loop. -/
def drawModelInstancedPro (layerOK : Nat → Bool) (model : Option r3d_model)
    (globalAabb : Option Nat) (globalTransform : Nat)
    (instanceTransforms : Option Nat) (instanceCount : Int) (st : DrawState) :
    DrawState :=
  match model with
  | none => st
  | some md =>
      if instanceCount = 0 || instanceTransforms = none || md.meshes.length = 0 then st
      else
        drawModelLoop layerOK md.materials (md.meshes.zip md.meshMaterials)
          (pushGroup st
            { transform := globalTransform, aabb := md.modelAabb,
              skeleton := md.skeleton, player := md.player,
              instAabb := globalAabb.getD 0,
              instTransforms := instanceTransforms, instCount := instanceCount })

/-! ### The `R3D_End` pass sequence (`src/r3d_draw.c`, lines 108-209)

`R3D_End` is straight-line code; we reify each pass / pipeline step it
issues as a token, in the exact textual order of the source, with every
conditional mirrored by a boolean.  Target clears and the CPU-side light
culling update (`r3d_light_update_and_cull`, which precedes the shadow pass)
are not render passes of the claim's state machine and carry no token. -/

/-- The passes and pipeline steps of one `R3D_End` call. -/
inductive PassKind where
  | shadow
  | culling
  | sortOpaque
  | sortTransparent
  | geometry
  | decals
  | ssao
  | lighting
  | ssil
  | ssr
  | ambient
  | deferredCompose
  | background
  | depthPrepass
  | forward
  | postFog
  | postDof
  | postBloom
  | postTonemap
  | postFxaa
  | blit
deriving DecidableEq, Repr

/-- The environment / flag state consulted by `R3D_End`'s conditionals. -/
structure EndFlags where
  noFrustumCulling : Bool
  opaqueSorting : Bool
  transparentSorting : Bool
  hasDeferred : Bool
  hasDecal : Bool
  ssaoEnabled : Bool
  hasVisibleLight : Bool
  ssilEnabled : Bool
  ssrEnabled : Bool
  hasForward : Bool
  hasPrepass : Bool
  fogEnabled : Bool
  dofEnabled : Bool
  bloomEnabled : Bool
  fxaaEnabled : Bool
deriving DecidableEq, Repr

/-- The deferred block of `R3D_End` (executed only when some deferred draw
call exists): geometry, optional decals, optional SSAO, per-light lighting
accumulation when a visible light exists, optional SSIL and SSR, ambient
composition, compose to the scene target. -/
def deferredSeg (f : EndFlags) : List PassKind :=
  if f.hasDeferred then
    .geometry ::
      ((if f.hasDecal then [.decals] else [])
        ++ (if f.ssaoEnabled then [.ssao] else [])
        ++ (if f.hasVisibleLight then [.lighting] else [])
        ++ (if f.ssilEnabled then [.ssil] else [])
        ++ (if f.ssrEnabled then [.ssr] else [])
        ++ [.ambient, .deferredCompose])
  else []

/-- The transparency block of `R3D_End`: optional depth prepass, then the
forward pass, executed when any prepass or forward draw call exists. -/
def forwardSeg (f : EndFlags) : List PassKind :=
  if f.hasForward || f.hasPrepass then
    (if f.hasPrepass then [.depthPrepass] else []) ++ [.forward]
  else []

/-- The post-effect chain of `R3D_End`: optional fog, depth of field and
bloom, then the tonemap output pass, then optional FXAA. -/
def postSeg (f : EndFlags) : List PassKind :=
  (if f.fogEnabled then [.postFog] else [])
    ++ (if f.dofEnabled then [.postDof] else [])
    ++ (if f.bloomEnabled then [.postBloom] else [])
    ++ [.postTonemap]
    ++ (if f.fxaaEnabled then [.postFxaa] else [])

/-- The full pass trace of one `R3D_End` call, in source order: shadow pass;
group culling unless disabled; optional opaque / transparent sorting; the
deferred block; background; the transparency block; the post chain; the
final blit. -/
def endTrace (f : EndFlags) : List PassKind :=
  (.shadow ::
    ((if f.noFrustumCulling then [] else [.culling])
      ++ (if f.opaqueSorting then [.sortOpaque] else [])
      ++ (if f.transparentSorting then [.sortTransparent] else [])
      ++ deferredSeg f
      ++ [.background]
      ++ forwardSeg f
      ++ postSeg f))
  ++ [.blit]

/-- The position of each pass in the fixed order of the spec's state machine
(`Shadow → Culling/Sorting → Geometry → Decals → [SSAO] → Lighting → [SSIL]
→ [SSR] → Ambient+Compose → Background → [Prepass] → Forward → PostFog →
PostDoF → PostBloom → PostTonemap → [PostFXAA] → Blit`). -/
def passRank : PassKind → Nat
  | .shadow => 0
  | .culling => 1
  | .sortOpaque => 2
  | .sortTransparent => 3
  | .geometry => 4
  | .decals => 5
  | .ssao => 6
  | .lighting => 7
  | .ssil => 8
  | .ssr => 9
  | .ambient => 10
  | .deferredCompose => 11
  | .background => 12
  | .depthPrepass => 13
  | .forward => 14
  | .postFog => 15
  | .postDof => 16
  | .postBloom => 17
  | .postTonemap => 18
  | .postFxaa => 19
  | .blit => 20

/-- The flag state that enables every pass. -/
def allFlags : EndFlags :=
  { noFrustumCulling := false, opaqueSorting := true, transparentSorting := true,
    hasDeferred := true, hasDecal := true, ssaoEnabled := true,
    hasVisibleLight := true, ssilEnabled := true, ssrEnabled := true,
    hasForward := true, hasPrepass := true, fogEnabled := true,
    dofEnabled := true, bloomEnabled := true, fxaaEnabled := true }

/-- The GL call that `R3D_BindCustomUniforms` issues for a matched material
parameter, determined ONLY by the shader-declared type of the uniform, its
cached location / texture slot, and the stored value union - never by the
parameter's own type tag. -/
def glCallsFor (ty : R3D_ParamType) (loc slot : Int) (v : ParamValue) : List GLCall :=
  match ty with
  | .float => [.uniform1f loc v.w0]
  | .vec2 => [.uniform2fv loc v.w0 v.w1]
  | .vec3 => [.uniform3fv loc v.w0 v.w1 v.w2]
  | .vec4 => [.uniform4fv loc v.w0 v.w1 v.w2 v.w3]
  | .tex2d => [.activeTexture slot, .bindTexture2D v.texId]

/-- All stored parameter names fit the 63-character bound (true of every
material built through the setters, since names are stored truncated). -/
def wellFormedNames (m : R3D_Material) : Prop :=
  ∀ p ∈ m.params, p.name.length ≤ 63

instance (m : R3D_Material) : Decidable (wellFormedNames m) :=
  List.decidableBAll (fun p : R3D_MaterialParam => p.name.length ≤ 63) m.params

/-- The parameters of `m` named (by `strcmp`) exactly `n`. -/
def entriesNamed (m : R3D_Material) (n : List Char) : List R3D_MaterialParam :=
  m.params.filter (fun p => p.name == n)

/-- Behaviour of one `R3D_SetMaterial*` call (the shape shared by all five
setters, i.e. of `FindOrCreateParam` followed by the value store): when no
stored parameter matches the full query name, a fresh parameter is appended,
named by the 63-character truncation, carrying the setter's type tag and the
value written into a zeroed union, with the capacity grown by the doubling
rule; when one matches, only that parameter's value union is rewritten - its
name, its type tag, every other parameter and the capacity are untouched. -/
def setterSpec (m res : R3D_Material) (n : List Char) (ty : R3D_ParamType)
    (wr : ParamValue → ParamValue) : Prop :=
  (findParamIdx m n = none →
      res.params = m.params ++ [⟨trunc63 n, ty, wr {}⟩] ∧
      res.paramCapacity = growCapacity m) ∧
  (∀ i, findParamIdx m n = some i →
      res.paramCapacity = m.paramCapacity ∧
      res.params.length = m.params.length ∧
      (∀ j, j ≠ i → res.params[j]? = m.params[j]?) ∧
      (∀ p, m.params[i]? = some p →
          res.params[i]? = some { p with value := wr p.value }))

/-! ## Generic list lemmas -/

theorem findFirstIdx_eq_none {α : Type} (p : α → Bool) (l : List α) :
    findFirstIdx p l = none ↔ ∀ x ∈ l, p x = false := by
  induction l with
  | nil => simp [findFirstIdx]
  | cons x xs ih =>
      by_cases h : p x
      · simp [findFirstIdx, h]
      · simp [findFirstIdx, h, ih]

theorem findFirstIdx_lt_length {α : Type} {p : α → Bool} {l : List α} {i : Nat}
    (h : findFirstIdx p l = some i) : i < l.length := by
  induction l generalizing i with
  | nil => simp [findFirstIdx] at h
  | cons x xs ih =>
      by_cases hx : p x
      · simp [findFirstIdx, hx] at h
        simp
        omega
      · simp [findFirstIdx, hx] at h
        obtain ⟨j, hj, rfl⟩ := h
        have := ih hj
        simp
        omega

theorem findFirstIdx_getElem? {α : Type} {p : α → Bool} {l : List α} {i : Nat}
    (h : findFirstIdx p l = some i) : ∃ x, l[i]? = some x ∧ p x = true := by
  induction l generalizing i with
  | nil => simp [findFirstIdx] at h
  | cons x xs ih =>
      by_cases hx : p x
      · simp [findFirstIdx, hx] at h
        subst h
        exact ⟨x, by simp, hx⟩
      · simp [findFirstIdx, hx] at h
        obtain ⟨j, hj, rfl⟩ := h
        simpa using ih hj

theorem modifyAt_nil {α : Type} (f : α → α) (i : Nat) : modifyAt f i [] = [] := by
  cases i <;> rfl

theorem length_modifyAt {α : Type} (f : α → α) (i : Nat) (l : List α) :
    (modifyAt f i l).length = l.length := by
  induction l generalizing i with
  | nil => simp [modifyAt_nil]
  | cons x xs ih =>
      cases i with
      | zero => simp [modifyAt]
      | succ n => simp [modifyAt, ih]

theorem modifyAt_append_len {α : Type} (f : α → α) (l : List α) (a : α) :
    modifyAt f l.length (l ++ [a]) = l ++ [f a] := by
  induction l with
  | nil => rfl
  | cons x xs ih => simpa [modifyAt] using ih

theorem getElem?_modifyAt_eq {α : Type} (f : α → α) (i : Nat) (l : List α) :
    (modifyAt f i l)[i]? = (l[i]?).map f := by
  induction l generalizing i with
  | nil => simp [modifyAt]
  | cons x xs ih =>
      cases i with
      | zero => simp [modifyAt]
      | succ n => simpa [modifyAt] using ih n

theorem getElem?_modifyAt_ne {α : Type} (f : α → α) {i j : Nat} (l : List α)
    (h : j ≠ i) : (modifyAt f i l)[j]? = l[j]? := by
  induction l generalizing i j with
  | nil => simp [modifyAt]
  | cons x xs ih =>
      cases i with
      | zero =>
          cases j with
          | zero => exact absurd rfl h
          | succ m => simp [modifyAt]
      | succ n =>
          cases j with
          | zero => simp [modifyAt]
          | succ m =>
              simp only [modifyAt]
              simpa using ih (by omega)

theorem findFirstIdx_modifyAt {α : Type} {p : α → Bool} (f : α → α) (i : Nat)
    (l : List α) (hf : ∀ x, p (f x) = p x) :
    findFirstIdx p (modifyAt f i l) = findFirstIdx p l := by
  induction l generalizing i with
  | nil => simp [modifyAt_nil]
  | cons x xs ih =>
      cases i with
      | zero => simp [modifyAt, findFirstIdx, hf]
      | succ n => simp [modifyAt, findFirstIdx, ih]

theorem find?_modifyAt_at_first {α : Type} {p : α → Bool} (f : α → α) {l : List α}
    {i : Nat} (h : findFirstIdx p l = some i) (hf : ∀ x, p (f x) = p x) :
    List.find? p (modifyAt f i l) = (l[i]?).map f := by
  induction l generalizing i with
  | nil => simp [findFirstIdx] at h
  | cons x xs ih =>
      by_cases hx : p x
      · simp [findFirstIdx, hx] at h
        subst h
        simp [modifyAt, List.find?, hf, hx]
      · simp [findFirstIdx, hx] at h
        obtain ⟨j, hj, rfl⟩ := h
        simpa [modifyAt, List.find?, hx] using ih hj

theorem find?_append_singleton {α : Type} {p : α → Bool} {l : List α} (a : α)
    (h : ∀ x ∈ l, p x = false) :
    List.find? p (l ++ [a]) = if p a then some a else none := by
  induction l with
  | nil => cases hp : p a <;> simp [List.find?, hp]
  | cons x xs ih =>
      have hx := h x (by simp)
      simp only [List.cons_append, List.find?, hx]
      exact ih (fun y hy => h y (by simp [hy]))

theorem filter_length_modifyAt {α : Type} {q : α → Bool} (f : α → α) (i : Nat)
    (l : List α) (hf : ∀ x, q (f x) = q x) :
    ((modifyAt f i l).filter q).length = (l.filter q).length := by
  induction l generalizing i with
  | nil => simp [modifyAt_nil]
  | cons x xs ih =>
      cases i with
      | zero =>
          by_cases hx : q x <;> simp [modifyAt, List.filter, hf, hx]
      | succ n =>
          by_cases hx : q x <;> simp [modifyAt, List.filter, hx, ih]

theorem takeWhile_length_le_of_fail {α : Type} {p : α → Bool} {l : List α}
    {i : Nat} {x : α} (hget : l[i]? = some x) (hx : p x = false) :
    (l.takeWhile p).length ≤ i := by
  induction l generalizing i with
  | nil => simp at hget
  | cons y ys ih =>
      cases i with
      | zero =>
          simp at hget
          subst hget
          simp [List.takeWhile_cons, hx]
      | succ n =>
          simp at hget
          by_cases hy : p y
          · simp [List.takeWhile_cons, hy]
            exact ih hget
          · simp [List.takeWhile_cons, hy]

end R3D

namespace R3D

/-! ## Material-setter lemmas -/

theorem setParamWith_spec (m : R3D_Material) (n : List Char) (ty : R3D_ParamType)
    (wr : ParamValue → ParamValue) :
    setterSpec m (setParamWith m n ty wr) n ty wr := by
  constructor
  · intro h
    refine ⟨?_, ?_⟩
    · simp only [setParamWith, findOrCreateParam, h]
      exact modifyAt_append_len _ m.params _
    · simp [setParamWith, findOrCreateParam, h]
  · intro i h
    refine ⟨?_, ?_, ?_, ?_⟩
    · simp [setParamWith, findOrCreateParam, h]
    · simp [setParamWith, findOrCreateParam, h, length_modifyAt]
    · intro j hj
      simp only [setParamWith, findOrCreateParam, h]
      exact getElem?_modifyAt_ne _ m.params hj
    · intro p hp
      simp only [setParamWith, findOrCreateParam, h]
      rw [getElem?_modifyAt_eq, hp, Option.map_some']

/-- The parameter list after a setter call when the name search hit index
`i`: the value union at `i` is rewritten in place. -/
theorem setParamWith_params_of_found (m : R3D_Material) (n : List Char)
    (ty : R3D_ParamType) (wr : ParamValue → ParamValue) {i : Nat}
    (h : findParamIdx m n = some i) :
    (setParamWith m n ty wr).params
      = modifyAt (fun p => { p with value := wr p.value }) i m.params := by
  simp only [setParamWith, findOrCreateParam, h]

/-- The capacity after a setter call when the name search hit. -/
theorem setParamWith_capacity_of_found (m : R3D_Material) (n : List Char)
    (ty : R3D_ParamType) (wr : ParamValue → ParamValue) {i : Nat}
    (h : findParamIdx m n = some i) :
    (setParamWith m n ty wr).paramCapacity = m.paramCapacity := by
  simp only [setParamWith, findOrCreateParam, h]

/-- Truncation is the identity on names of at most 63 characters. -/
theorem trunc63_of_le {n : List Char} (h : n.length ≤ 63) : trunc63 n = n :=
  List.take_of_length_le h

theorem findFirstIdx_append_singleton {α : Type} {p : α → Bool} {l : List α}
    {a : α} (hl : ∀ x ∈ l, p x = false) (ha : p a = true) :
    findFirstIdx p (l ++ [a]) = some l.length := by
  induction l with
  | nil => simp [findFirstIdx, ha]
  | cons x xs ih =>
      have hx := hl x (by simp)
      simp only [List.cons_append, findFirstIdx, hx, Bool.false_eq_true, if_false]
      rw [show xs.append [a] = xs ++ [a] from rfl, ih (fun y hy => hl y (by simp [hy]))]
      simp

end R3D

namespace R3D

/-- C6 (amended): each `R3D_SetMaterial{Float,Vec2,Vec3,Vec4,Texture}` call
finds the existing parameter matching the name or appends a new one (growing
the capacity-doubling array as needed) and leaves that parameter's value
fields equal to the given value; the type tag becomes the setter's type only
when the parameter is newly appended - an existing parameter's type tag is
left unchanged. -/
theorem c6_setters_find_or_append (m : R3D_Material) (n : List Char)
    (v x y z w : F32) (tex : Nat) :
    setterSpec m (setMaterialFloat m n v) n .float (fun u => { u with w0 := v }) ∧
    setterSpec m (setMaterialVec2 m n x y) n .vec2 (fun u => { u with w0 := x, w1 := y }) ∧
    setterSpec m (setMaterialVec3 m n x y z) n .vec3
      (fun u => { u with w0 := x, w1 := y, w2 := z }) ∧
    setterSpec m (setMaterialVec4 m n x y z w) n .vec4
      (fun u => { u with w0 := x, w1 := y, w2 := z, w3 := w }) ∧
    setterSpec m (setMaterialTexture m n tex) n .tex2d (fun u => { u with texId := tex }) :=
  ⟨setParamWith_spec m n .float _, setParamWith_spec m n .vec2 _,
   setParamWith_spec m n .vec3 _, setParamWith_spec m n .vec4 _,
   setParamWith_spec m n .tex2d _⟩

/-- C6 counterexample to the claim as stated: setting `"x"` first as a float
and then as a vec3 leaves the stored parameter's type tag at `float` - the
second setter did NOT overwrite the type tag with its own type. -/
theorem c6_counterexample :
    ((setMaterialVec3 (setMaterialFloat ⟨[], 0⟩ ("x".toList) 1) ("x".toList) 2 3 4).params.map
        (fun p => p.type)) = [R3D_ParamType.float] ∧
      R3D_ParamType.float ≠ R3D_ParamType.vec3 := by
  decide

end R3D

namespace R3D

/-- C7 (amended): for a name of at most 63 characters (`R3D_MAX_UNIFORM_NAME_LENGTH - 1`),
on a material holding at most one parameter so named, calling
`R3D_SetMaterialFloat` twice with that name leaves exactly one parameter
entry named `n`, grows the parameter count by at most one over both calls,
and the entry the draw-time lookup finds holds the second call's value. -/
theorem c7_set_float_idempotent (m : R3D_Material) (n : List Char) (v₁ v₂ : F32)
    (hn : n.length ≤ 63) (h1 : (entriesNamed m n).length ≤ 1) :
    (entriesNamed (setMaterialFloat (setMaterialFloat m n v₁) n v₂) n).length = 1 ∧
    (setMaterialFloat (setMaterialFloat m n v₁) n v₂).params.length ≤ m.params.length + 1 ∧
    ∃ p, findMatchingParam (setMaterialFloat (setMaterialFloat m n v₁) n v₂) n = some p ∧
      p.value.w0 = v₂ := by
  have htr : trunc63 n = n := trunc63_of_le hn
  cases hidx : findParamIdx m n with
  | none =>
      have hall : ∀ p ∈ m.params, (p.name == n) = false :=
        (findFirstIdx_eq_none _ _).mp hidx
      have hm1 : (setMaterialFloat m n v₁).params
          = m.params ++ [⟨n, .float, { w0 := v₁ }⟩] := by
        have := ((setParamWith_spec m n .float (fun u => { u with w0 := v₁ })).1 hidx).1
        rw [htr] at this
        exact this
      have hidx1 : findParamIdx (setMaterialFloat m n v₁) n = some m.params.length := by
        rw [findParamIdx, hm1]
        exact findFirstIdx_append_singleton hall (by simp)
      have hm2 : (setMaterialFloat (setMaterialFloat m n v₁) n v₂).params
          = m.params ++ [⟨n, .float, { w0 := v₂ }⟩] := by
        rw [setMaterialFloat,
          setParamWith_params_of_found (setMaterialFloat m n v₁) n _ _ hidx1, hm1]
        exact modifyAt_append_len _ m.params _
      refine ⟨?_, ?_, ?_⟩
      · rw [entriesNamed, hm2, List.filter_append]
        have : List.filter (fun p => p.name == n) m.params = [] := by
          rw [List.filter_eq_nil_iff]
          intro a ha
          simp [hall a ha]
        simp [this]
      · rw [hm2]; simp
      · refine ⟨⟨n, .float, { w0 := v₂ }⟩, ?_, rfl⟩
        rw [findMatchingParam, hm2, find?_append_singleton _ hall]
        simp
  | some i =>
      obtain ⟨p₀, hp₀, hq₀⟩ := findFirstIdx_getElem? hidx
      have hf₁ : ∀ p : R3D_MaterialParam,
          (({ p with value := { p.value with w0 := v₁ } }).name == n) = (p.name == n) := by
        intro p; rfl
      have hf₂ : ∀ p : R3D_MaterialParam,
          (({ p with value := { p.value with w0 := v₂ } }).name == n) = (p.name == n) := by
        intro p; rfl
      have hm1 : (setMaterialFloat m n v₁).params
          = modifyAt (fun p => { p with value := { p.value with w0 := v₁ } }) i m.params :=
        setParamWith_params_of_found m n _ _ hidx
      have hidx1 : findParamIdx (setMaterialFloat m n v₁) n = some i := by
        rw [findParamIdx, hm1, findFirstIdx_modifyAt _ i m.params hf₁]
        exact hidx
      have hm2 : (setMaterialFloat (setMaterialFloat m n v₁) n v₂).params
          = modifyAt (fun p => { p with value := { p.value with w0 := v₂ } }) i
              (setMaterialFloat m n v₁).params :=
        setParamWith_params_of_found (setMaterialFloat m n v₁) n _ _ hidx1
      refine ⟨?_, ?_, ?_⟩
      · rw [entriesNamed, hm2, filter_length_modifyAt _ i _ hf₂, hm1,
          filter_length_modifyAt _ i _ hf₁]
        have hmem : p₀ ∈ List.filter (fun p => p.name == n) m.params :=
          List.mem_filter.mpr ⟨List.getElem?_mem hp₀, hq₀⟩
        have hpos : 0 < (List.filter (fun p => p.name == n) m.params).length :=
          List.length_pos.mpr (List.ne_nil_of_mem hmem)
        have := h1
        rw [entriesNamed] at this
        omega
      · rw [hm2, length_modifyAt, hm1, length_modifyAt]
        omega
      · have hget1 : (setMaterialFloat m n v₁).params[i]?
            = some { p₀ with value := { p₀.value with w0 := v₁ } } := by
          rw [hm1, getElem?_modifyAt_eq, hp₀, Option.map_some']
        have hfind : findMatchingParam (setMaterialFloat (setMaterialFloat m n v₁) n v₂) n
            = some { p₀ with value := { p₀.value with w0 := v₂ } } := by
          rw [findMatchingParam, hm2,
            find?_modifyAt_at_first _ hidx1 hf₂, hget1, Option.map_some']
        exact ⟨_, hfind, rfl⟩

/-- C7 counterexample to the claim as stated: with a 64-character name the
stored entry is the 63-character truncation, the second call's full-name
search never matches it, and both calls append - the material ends with TWO
entries and none of them is named `n`. -/
theorem c7_counterexample :
    (setMaterialFloat (setMaterialFloat ⟨[], 0⟩ (List.replicate 64 'a') 5)
        (List.replicate 64 'a') 7).params.length = 2 ∧
      (entriesNamed
        (setMaterialFloat (setMaterialFloat ⟨[], 0⟩ (List.replicate 64 'a') 5)
          (List.replicate 64 'a') 7) (List.replicate 64 'a')).length = 0 := by
  decide

end R3D

namespace R3D

/-- C8 (amended): for a parameter name of at most 63 characters, after
`R3D_SetMaterialVec3(M, n, v)`, binding `M` against a custom shader whose
discovered uniform named `n` is vec3-typed passes exactly the three stored
words `x, y, z`, in that order and unchanged, to `glUniform3fv`. -/
theorem c8_vec3_round_trip (m : R3D_Material) (n : List Char) (x y z : F32)
    (info : R3D_UniformInfo) (hn : n.length ≤ 63) (hname : info.name = n)
    (hty : info.type = .vec3) :
    bindOne (setMaterialVec3 m n x y z) info = [.uniform3fv info.location x y z] := by
  subst hname
  have htr : trunc63 info.name = info.name := trunc63_of_le hn
  cases hidx : findParamIdx m info.name with
  | none =>
      have hall : ∀ p ∈ m.params, (p.name == info.name) = false :=
        (findFirstIdx_eq_none _ _).mp hidx
      have hm1 : (setMaterialVec3 m info.name x y z).params
          = m.params ++ [⟨info.name, .vec3, { w0 := x, w1 := y, w2 := z }⟩] := by
        have := ((setParamWith_spec m info.name .vec3
          (fun u => { u with w0 := x, w1 := y, w2 := z })).1 hidx).1
        rw [htr] at this
        exact this
      have hfind : findMatchingParam (setMaterialVec3 m info.name x y z) info.name
          = some ⟨info.name, .vec3, { w0 := x, w1 := y, w2 := z }⟩ := by
        rw [findMatchingParam, hm1, find?_append_singleton _ hall]
        simp
      simp [bindOne, hfind, hty]
  | some i =>
      obtain ⟨p₀, hp₀, hq₀⟩ := findFirstIdx_getElem? hidx
      have hf : ∀ p : R3D_MaterialParam,
          (({ p with value := { p.value with w0 := x, w1 := y, w2 := z } }).name
            == info.name) = (p.name == info.name) := by
        intro p; rfl
      have hm1 : (setMaterialVec3 m info.name x y z).params
          = modifyAt (fun p => { p with value := { p.value with w0 := x, w1 := y, w2 := z } })
              i m.params :=
        setParamWith_params_of_found m info.name _ _ hidx
      have hfind : findMatchingParam (setMaterialVec3 m info.name x y z) info.name
          = some { p₀ with value := { p₀.value with w0 := x, w1 := y, w2 := z } } := by
        rw [findMatchingParam, hm1, find?_modifyAt_at_first _ hidx hf, hp₀, Option.map_some']
      simp [bindOne, hfind, hty]

/-- C8 witness: the round-trip theorem applied at a concrete material, name
and shader uniform. -/
theorem c8_vec3_round_trip_witness :
    ("u".toList).length ≤ 63 ∧
    bindOne (setMaterialVec3 ⟨[], 0⟩ ("u".toList) 1 2 3)
        ⟨"u".toList, 4, .vec3, -1⟩ = [.uniform3fv 4 1 2 3] :=
  ⟨by decide,
   c8_vec3_round_trip ⟨[], 0⟩ ("u".toList) 1 2 3 ⟨"u".toList, 4, .vec3, -1⟩
     (by decide) rfl rfl⟩

/-- C8 counterexample to the claim as stated (arbitrary names): with the
64-character name `n = 'a'*64` and a material already holding an entry under
the 63-character truncation, `R3D_SetMaterialVec3` appends a second entry
(its full-name search misses the truncated entry), while the shader's
discovered uniform carries the truncated name, so the bind path reads the
OLD first entry and passes its bytes - not the vec3 just stored. -/
theorem c8_counterexample :
    bindCustomUniforms
        ⟨discoverCustomUniforms [⟨List.replicate 64 'a', 7, .vec3⟩]⟩
        (setMaterialVec3 ⟨[⟨List.replicate 63 'a', .float, { w0 := 99 }⟩], 4⟩
          (List.replicate 64 'a') 1 2 3)
      = [.uniform3fv 7 99 0 0] ∧
    [GLCall.uniform3fv 7 99 0 0] ≠ [GLCall.uniform3fv 7 1 2 3] := by
  decide

/-- C2 (amended): the draw-time bind path does NOT ignore a material
parameter whose stored type tag differs from the shader-declared type of the
same-named uniform: whenever a same-named parameter exists, a GL bind call
IS issued, and it is the call dictated solely by the shader-declared type,
the cached location/slot and the stored value union - the stored type tag is
never consulted (only a missing same-named parameter, or a uniform absent
from the table, issues nothing; no error is raised in any case). -/
theorem c2_bind_ignores_type_tag (mat : R3D_Material) (info : R3D_UniformInfo) :
    (findMatchingParam mat info.name = none → bindOne mat info = []) ∧
    (∀ p, findMatchingParam mat info.name = some p →
      bindOne mat info = glCallsFor info.type info.location info.texSlot p.value ∧
      bindOne mat info ≠ []) := by
  constructor
  · intro h
    simp [bindOne, h]
  · intro p h
    constructor
    · cases hty : info.type <;> simp [bindOne, h, glCallsFor, hty]
    · cases hty : info.type <;> simp [bindOne, h, hty]

/-- C2 witness: the bind characterisation applied to a concrete material and
uniform whose types disagree (stored float vs declared vec3). -/
theorem c2_bind_ignores_type_tag_witness :
    findMatchingParam (setMaterialFloat ⟨[], 0⟩ ("x".toList) 1)
        (R3D_UniformInfo.mk ("x".toList) 3 .vec3 (-1)).name
      = some ⟨"x".toList, .float, { w0 := 1 }⟩ ∧
    bindOne (setMaterialFloat ⟨[], 0⟩ ("x".toList) 1) ⟨"x".toList, 3, .vec3, -1⟩
      = glCallsFor .vec3 3 (-1) { w0 := 1 } :=
  ⟨by decide,
   ((c2_bind_ignores_type_tag (setMaterialFloat ⟨[], 0⟩ ("x".toList) 1)
      ⟨"x".toList, 3, .vec3, -1⟩).2 ⟨"x".toList, .float, { w0 := 1 }⟩ (by decide)).1⟩

/-- C2 counterexample to the claim as stated: a material parameter `x` of
stored type float, bound against a shader whose linked program declares `x`
as vec3, is NOT silently ignored - `glUniform3fv` is issued with the stored
union bytes. -/
theorem c2_counterexample :
    (findMatchingParam (setMaterialFloat ⟨[], 0⟩ ("x".toList) 1) ("x".toList)).map
        (fun p => p.type) = some .float ∧
    R3D_ParamType.float ≠ R3D_ParamType.vec3 ∧
    bindCustomUniforms ⟨discoverCustomUniforms [⟨"x".toList, 3, .vec3⟩]⟩
        (setMaterialFloat ⟨[], 0⟩ ("x".toList) 1)
      = [.uniform3fv 3 1 0 0] := by
  decide

end R3D

namespace R3D

/-- C6 witness: the setter characterisation at a concrete material and name. -/
theorem c6_setters_find_or_append_witness :
    setterSpec ⟨[], 0⟩ (setMaterialFloat ⟨[], 0⟩ ("x".toList) 9) ("x".toList) .float
      (fun u => { u with w0 := 9 }) :=
  (c6_setters_find_or_append ⟨[], 0⟩ ("x".toList) 9 0 0 0 0 0).1

/-- C7 witness: the idempotence theorem applied at a concrete material. -/
theorem c7_set_float_idempotent_witness :
    ("x".toList).length ≤ 63 ∧
    (entriesNamed ⟨[], 0⟩ ("x".toList)).length ≤ 1 ∧
    ((entriesNamed (setMaterialFloat (setMaterialFloat ⟨[], 0⟩ ("x".toList) 4)
        ("x".toList) 6) ("x".toList)).length = 1 ∧
      (setMaterialFloat (setMaterialFloat ⟨[], 0⟩ ("x".toList) 4) ("x".toList) 6).params.length
        ≤ (R3D_Material.mk [] 0).params.length + 1 ∧
      ∃ p, findMatchingParam (setMaterialFloat (setMaterialFloat ⟨[], 0⟩ ("x".toList) 4)
          ("x".toList) 6) ("x".toList) = some p ∧ p.value.w0 = 6) :=
  ⟨by decide, by decide,
   c7_set_float_idempotent ⟨[], 0⟩ ("x".toList) 4 6 (by decide) (by decide)⟩

/-! ## Lemmas for name truncation (C10) -/

theorem findFirstIdx_ne_none_of_mem {α : Type} {p : α → Bool} {l : List α} {x : α}
    (hx : x ∈ l) (hp : p x = true) : findFirstIdx p l ≠ none := by
  intro h
  have := (findFirstIdx_eq_none _ _).mp h x hx
  rw [hp] at this
  exact Bool.noConfusion this

theorem mem_modifyAt_imp {α : Type} {f : α → α} {i : Nat} {l : List α} {x : α}
    (hx : x ∈ modifyAt f i l) : x ∈ l ∨ ∃ y ∈ l, x = f y := by
  induction l generalizing i with
  | nil => simp [modifyAt_nil] at hx
  | cons a as ih =>
      cases i with
      | zero =>
          simp only [modifyAt] at hx
          rcases List.mem_cons.mp hx with h | h
          · exact Or.inr ⟨a, by simp, h⟩
          · exact Or.inl (List.mem_cons.mpr (Or.inr h))
      | succ k =>
          simp only [modifyAt] at hx
          rcases List.mem_cons.mp hx with h | h
          · exact Or.inl (by simp [h])
          · rcases ih h with h' | ⟨y, hy, hxy⟩
            · exact Or.inl (List.mem_cons.mpr (Or.inr h'))
            · exact Or.inr ⟨y, List.mem_cons.mpr (Or.inr hy), hxy⟩

theorem trunc63_length_le (n : List Char) : (trunc63 n).length ≤ 63 := by
  simp [trunc63, R3D_MAX_UNIFORM_NAME_LENGTH]

end R3D

namespace R3D

/-! ## Lemmas for custom-uniform discovery (C3) -/

theorem discoverLoop_eq (us : List ActiveUniform) (acc : List R3D_UniformInfo)
    (slot : Nat) (hacc : acc.length ≤ R3D_MAX_CUSTOM_UNIFORMS) :
    discoverLoop us acc slot
      = acc ++ mkInfos ((us.filter registrable).take (R3D_MAX_CUSTOM_UNIFORMS - acc.length))
          slot := by
  induction us generalizing acc slot with
  | nil => simp [discoverLoop, mkInfos]
  | cons u rest ih =>
      by_cases hlt : acc.length < R3D_MAX_CUSTOM_UNIFORMS
      · by_cases hskip : skipName u.name
        · have hreg : registrable u = false := by simp [registrable, hskip]
          simp only [discoverLoop, hlt, if_true, hskip, if_true, List.filter_cons, hreg,
            Bool.false_eq_true, if_false]
          exact ih acc slot hacc
        · have htake : ∀ l : List ActiveUniform,
              ((u :: l).take (R3D_MAX_CUSTOM_UNIFORMS - acc.length))
                = u :: l.take (R3D_MAX_CUSTOM_UNIFORMS - (acc.length + 1)) := by
            intro l
            have h1 : R3D_MAX_CUSTOM_UNIFORMS - acc.length
                = (R3D_MAX_CUSTOM_UNIFORMS - (acc.length + 1)) + 1 := by
              simp only [R3D_MAX_CUSTOM_UNIFORMS] at hlt ⊢
              omega
            rw [h1, List.take_succ_cons]
          cases hty : u.gltype with
          | other =>
              have hreg : registrable u = false := by
                simp [registrable, hskip, supportedGLType, hty]
              simp only [discoverLoop, hlt, if_true, hskip, Bool.false_eq_true, if_false,
                hty, List.filter_cons, hreg]
              exact ih acc slot hacc
          | float =>
              have hreg : registrable u = true := by
                simp [registrable, hskip, supportedGLType, hty]
              simp only [discoverLoop, hlt, if_true, hskip, Bool.false_eq_true, if_false,
                hty, List.filter_cons, hreg, if_true]
              rw [ih _ slot (by simpa using Nat.succ_le_of_lt hlt), htake, mkInfos, hty]
              simp
          | vec2 =>
              have hreg : registrable u = true := by
                simp [registrable, hskip, supportedGLType, hty]
              simp only [discoverLoop, hlt, if_true, hskip, Bool.false_eq_true, if_false,
                hty, List.filter_cons, hreg, if_true]
              rw [ih _ slot (by simpa using Nat.succ_le_of_lt hlt), htake, mkInfos, hty]
              simp
          | vec3 =>
              have hreg : registrable u = true := by
                simp [registrable, hskip, supportedGLType, hty]
              simp only [discoverLoop, hlt, if_true, hskip, Bool.false_eq_true, if_false,
                hty, List.filter_cons, hreg, if_true]
              rw [ih _ slot (by simpa using Nat.succ_le_of_lt hlt), htake, mkInfos, hty]
              simp
          | vec4 =>
              have hreg : registrable u = true := by
                simp [registrable, hskip, supportedGLType, hty]
              simp only [discoverLoop, hlt, if_true, hskip, Bool.false_eq_true, if_false,
                hty, List.filter_cons, hreg, if_true]
              rw [ih _ slot (by simpa using Nat.succ_le_of_lt hlt), htake, mkInfos, hty]
              simp
          | sampler2D =>
              have hreg : registrable u = true := by
                simp [registrable, hskip, supportedGLType, hty]
              simp only [discoverLoop, hlt, if_true, hskip, Bool.false_eq_true, if_false,
                hty, List.filter_cons, hreg, if_true]
              rw [ih _ (slot + 1) (by simpa using Nat.succ_le_of_lt hlt), htake, mkInfos, hty]
              simp
      · have hieq : acc.length = R3D_MAX_CUSTOM_UNIFORMS := le_antisymm hacc (le_of_not_lt hlt)
        simp [discoverLoop, hlt, hieq, mkInfos]

theorem mkInfos_length (l : List ActiveUniform) (s : Nat)
    (h : ∀ u ∈ l, u.gltype ≠ .other) : (mkInfos l s).length = l.length := by
  induction l generalizing s with
  | nil => rfl
  | cons u rest ih =>
      have hu := h u (by simp)
      have hrest : ∀ v ∈ rest, v.gltype ≠ .other := fun v hv => h v (by simp [hv])
      cases hty : u.gltype <;> simp_all [mkInfos, ih]

theorem mkInfos_samplerSlots (l : List ActiveUniform) (s : Nat) :
    samplerSlots (mkInfos l s)
      = (List.range' s (samplerCount l)).map (fun k => (k : Int)) := by
  induction l generalizing s with
  | nil => simp [mkInfos, samplerSlots, samplerCount]
  | cons u rest ih =>
      cases hty : u.gltype <;>
        simp_all [mkInfos, samplerSlots, samplerCount, List.filter_cons, List.range'_succ]

theorem mkInfos_mem_name (l : List ActiveUniform) (s : Nat) (info : R3D_UniformInfo)
    (h : info ∈ mkInfos l s) : ∃ u ∈ l, info.name = trunc63 u.name := by
  induction l generalizing s with
  | nil => simp [mkInfos] at h
  | cons u rest ih =>
      cases hty : u.gltype <;> rw [mkInfos, hty] at h
      case other => obtain ⟨v, hv, hn⟩ := ih _ h; exact ⟨v, by simp [hv], hn⟩
      all_goals
        rcases List.mem_cons.mp h with h' | h'
        · exact ⟨u, by simp, by rw [h']⟩
        · obtain ⟨v, hv, hn⟩ := ih _ h'
          exact ⟨v, by simp [hv], hn⟩

end R3D

namespace R3D

theorem mkInfos_length_le (l : List ActiveUniform) (s : Nat) :
    (mkInfos l s).length ≤ l.length := by
  induction l generalizing s with
  | nil => simp [mkInfos]
  | cons u rest ih =>
      cases hty : u.gltype <;> simp only [mkInfos, hty, List.length_cons] <;>
        first
          | exact Nat.succ_le_succ (ih _)
          | exact Nat.le_succ_of_le (ih _)

/-- C3: on a fragment program whose active uniforms, after the deny-list /
`gl_` / array-index exclusions, all have supported types and number
`N ≤ 16`, discovery registers exactly those `N` uniforms in order (names
truncated), sampler-typed ones receiving the strictly increasing texture
slots `5, 6, ...` in discovery order; in general (last conjunct) discovery
registers exactly the first 16 registrable uniforms - those beyond the cap
are silently not registered and unsupported types are dropped without
error. -/
theorem c3_discover_registers_exactly (us : List ActiveUniform)
    (hsupp : ∀ u ∈ us, skipName u.name = false → supportedGLType u.gltype = true)
    (hcap : (us.filter (fun u => !skipName u.name)).length ≤ R3D_MAX_CUSTOM_UNIFORMS) :
    discoverCustomUniforms us
      = mkInfos (us.filter (fun u => !skipName u.name)) FIRST_CUSTOM_TEX_SLOT ∧
    (discoverCustomUniforms us).length
      = (us.filter (fun u => !skipName u.name)).length ∧
    samplerSlots (discoverCustomUniforms us)
      = (List.range' FIRST_CUSTOM_TEX_SLOT
          (samplerCount (us.filter (fun u => !skipName u.name)))).map (fun k => (k : Int)) ∧
    (∀ vs : List ActiveUniform,
      discoverCustomUniforms vs
        = mkInfos ((vs.filter registrable).take R3D_MAX_CUSTOM_UNIFORMS)
            FIRST_CUSTOM_TEX_SLOT ∧
      (discoverCustomUniforms vs).length ≤ R3D_MAX_CUSTOM_UNIFORMS) := by
  have hgen : ∀ vs : List ActiveUniform,
      discoverCustomUniforms vs
        = mkInfos ((vs.filter registrable).take R3D_MAX_CUSTOM_UNIFORMS)
            FIRST_CUSTOM_TEX_SLOT := by
    intro vs
    have := discoverLoop_eq vs [] FIRST_CUSTOM_TEX_SLOT (by simp [R3D_MAX_CUSTOM_UNIFORMS])
    simpa [discoverCustomUniforms] using this
  have hfe : us.filter registrable = us.filter (fun u => !skipName u.name) := by
    apply List.filter_congr
    intro u hu
    by_cases hs : skipName u.name
    · simp [registrable, hs]
    · simp [registrable, hs, hsupp u hu (by simp [hs])]
  have hmain : discoverCustomUniforms us
      = mkInfos (us.filter (fun u => !skipName u.name)) FIRST_CUSTOM_TEX_SLOT := by
    rw [hgen us, hfe, List.take_of_length_le hcap]
  have hnoother : ∀ u ∈ us.filter (fun u => !skipName u.name), u.gltype ≠ .other := by
    intro u hu
    have hmem := List.mem_filter.mp hu
    have := hsupp u hmem.1 (by simpa using hmem.2)
    cases hty : u.gltype <;> simp_all [supportedGLType]
  refine ⟨hmain, ?_, ?_, fun vs => ⟨hgen vs, ?_⟩⟩
  · rw [hmain]
    exact mkInfos_length (us.filter (fun u => !skipName u.name)) FIRST_CUSTOM_TEX_SLOT hnoother
  · rw [hmain]
    exact mkInfos_samplerSlots _ _
  · calc (discoverCustomUniforms vs).length
        = (mkInfos ((vs.filter registrable).take R3D_MAX_CUSTOM_UNIFORMS)
            FIRST_CUSTOM_TEX_SLOT).length := by rw [hgen vs]
      _ ≤ ((vs.filter registrable).take R3D_MAX_CUSTOM_UNIFORMS).length :=
          mkInfos_length_le _ _
      _ ≤ R3D_MAX_CUSTOM_UNIFORMS := by
          simp [List.length_take]

/-- C3 witness: discovery on a concrete uniform set mixing builtin, `gl_`,
array-indexed and two sampler uniforms. -/
theorem c3_discover_registers_exactly_witness :
    (∀ u ∈ [ActiveUniform.mk ("uMyTex".toList) 2 .sampler2D,
             ActiveUniform.mk ("uTexAlbedo".toList) 9 .sampler2D,
             ActiveUniform.mk ("uBlend".toList) 0 .float,
             ActiveUniform.mk ("gl_q".toList) 1 .float,
             ActiveUniform.mk ("arr[0]".toList) 3 .vec2,
             ActiveUniform.mk ("uTexB".toList) 6 .sampler2D],
        skipName u.name = false → supportedGLType u.gltype = true) ∧
    discoverCustomUniforms
        [ActiveUniform.mk ("uMyTex".toList) 2 .sampler2D,
         ActiveUniform.mk ("uTexAlbedo".toList) 9 .sampler2D,
         ActiveUniform.mk ("uBlend".toList) 0 .float,
         ActiveUniform.mk ("gl_q".toList) 1 .float,
         ActiveUniform.mk ("arr[0]".toList) 3 .vec2,
         ActiveUniform.mk ("uTexB".toList) 6 .sampler2D]
      = mkInfos
          (List.filter (fun u => !skipName u.name)
            [ActiveUniform.mk ("uMyTex".toList) 2 .sampler2D,
             ActiveUniform.mk ("uTexAlbedo".toList) 9 .sampler2D,
             ActiveUniform.mk ("uBlend".toList) 0 .float,
             ActiveUniform.mk ("gl_q".toList) 1 .float,
             ActiveUniform.mk ("arr[0]".toList) 3 .vec2,
             ActiveUniform.mk ("uTexB".toList) 6 .sampler2D])
          FIRST_CUSTOM_TEX_SLOT :=
  ⟨by decide,
   (c3_discover_registers_exactly _ (by decide) (by decide)).1⟩

end R3D

namespace R3D

/-- C10 (amended): parameter names are stored truncated to at most 63
characters (null-terminated by the zeroed 64-byte buffer); but lookups
compare the FULL query name against the stored truncated names, so a query
of 64 or more characters never matches any stored entry (on a material with
well-formed stored names) - two distinct long names sharing their first 63
characters therefore create separate duplicate entries rather than
addressing the same one; a distinct name equal to the 63-character
truncation does address the stored entry; setters preserve the name-length
bound; and discovered uniform names are truncated the same way, so the
draw-time match compares 63-character-truncated names on both sides. -/
theorem c10_name_truncation :
    (∀ (m : R3D_Material) (n : List Char) (ty : R3D_ParamType)
        (wr : ParamValue → ParamValue), findParamIdx m n = none →
      (setParamWith m n ty wr).params.getLast? = some ⟨trunc63 n, ty, wr {}⟩ ∧
      (trunc63 n).length ≤ 63) ∧
    (∀ (m : R3D_Material) (q : List Char), wellFormedNames m → 64 ≤ q.length →
      findParamIdx m q = none ∧ findMatchingParam m q = none) ∧
    (∀ (m : R3D_Material) (n : List Char) (ty : R3D_ParamType)
        (wr : ParamValue → ParamValue), wellFormedNames m →
      findParamIdx (setParamWith m n ty wr) (trunc63 n) ≠ none) ∧
    (∀ (m : R3D_Material) (n : List Char) (ty : R3D_ParamType)
        (wr : ParamValue → ParamValue), wellFormedNames m →
      wellFormedNames (setParamWith m n ty wr)) ∧
    (∀ (us : List ActiveUniform) (info : R3D_UniformInfo),
      info ∈ discoverCustomUniforms us → ∃ u ∈ us, info.name = trunc63 u.name) := by
  refine ⟨?_, ?_, ?_, ?_, ?_⟩
  · intro m n ty wr h
    have := ((setParamWith_spec m n ty wr).1 h).1
    rw [this, List.getLast?_concat]
    exact ⟨rfl, trunc63_length_le n⟩
  · intro m q hwf hq
    have hall : ∀ p ∈ m.params, (p.name == q) = false := by
      intro p hp
      have hne : p.name ≠ q := by
        intro he
        have := hwf p hp
        rw [he] at this
        omega
      simpa using hne
    refine ⟨(findFirstIdx_eq_none _ _).mpr hall, ?_⟩
    rw [findMatchingParam, List.find?_eq_none]
    intro p hp
    simp [hall p hp]
  · intro m n ty wr hwf
    cases hidx : findParamIdx m n with
    | none =>
        have := ((setParamWith_spec m n ty wr).1 hidx).1
        rw [findParamIdx, this]
        apply findFirstIdx_ne_none_of_mem (x := (⟨trunc63 n, ty, wr {}⟩ : R3D_MaterialParam))
        · simp
        · simp
    | some i =>
        obtain ⟨p₀, hp₀, hq₀⟩ := findFirstIdx_getElem? hidx
        have hpn : p₀.name = n := by simpa using hq₀
        have hn63 : n.length ≤ 63 := by
          have := hwf p₀ (List.getElem?_mem hp₀)
          rwa [hpn] at this
        have htr : trunc63 n = n := trunc63_of_le hn63
        have hm1 := setParamWith_params_of_found m n ty wr hidx
        rw [findParamIdx, hm1, htr,
          findFirstIdx_modifyAt (fun p => { p with value := wr p.value }) i m.params
            (fun p => rfl)]
        rw [findParamIdx] at hidx
        simp [hidx]
  · intro m n ty wr hwf p hp
    cases hidx : findParamIdx m n with
    | none =>
        have := ((setParamWith_spec m n ty wr).1 hidx).1
        rw [this] at hp
        rcases List.mem_append.mp hp with h | h
        · exact hwf p h
        · have : p = ⟨trunc63 n, ty, wr {}⟩ := by simpa using h
          rw [this]
          exact trunc63_length_le n
    | some i =>
        have hm1 := setParamWith_params_of_found m n ty wr hidx
        rw [hm1] at hp
        rcases mem_modifyAt_imp hp with h | ⟨y, hy, hxy⟩
        · exact hwf p h
        · rw [hxy]
          exact hwf y hy
  · intro us info h
    have hgen := discoverLoop_eq us [] FIRST_CUSTOM_TEX_SLOT
      (by simp [R3D_MAX_CUSTOM_UNIFORMS])
    rw [discoverCustomUniforms, hgen, List.nil_append] at h
    obtain ⟨u, hu, hn⟩ := mkInfos_mem_name _ _ _ h
    exact ⟨u, List.mem_of_mem_filter (List.mem_of_mem_take hu), hn⟩

/-- C10 witness: the long-name-never-matches conjunct applied to a concrete
well-formed material and a 64-character query. -/
theorem c10_name_truncation_witness :
    wellFormedNames ⟨[⟨List.replicate 63 'a', .float, { w0 := 1 }⟩], 4⟩ ∧
    64 ≤ (List.replicate 64 'a').length ∧
    findParamIdx ⟨[⟨List.replicate 63 'a', .float, { w0 := 1 }⟩], 4⟩
        (List.replicate 64 'a') = none ∧
    findMatchingParam ⟨[⟨List.replicate 63 'a', .float, { w0 := 1 }⟩], 4⟩
        (List.replicate 64 'a') = none :=
  ⟨by decide, by decide,
   c10_name_truncation.2.1 ⟨[⟨List.replicate 63 'a', .float, { w0 := 1 }⟩], 4⟩
     (List.replicate 64 'a') (by decide) (by decide)⟩

/-- C10 counterexample to the claim as stated: the two distinct 64-character
names `'a'*63 ++ "b"` and `'a'*63 ++ "c"` share their first 63 characters,
yet setting a parameter under each produces TWO separate entries - they do
not address the same parameter entry. -/
theorem c10_counterexample :
    (List.replicate 63 'a' ++ ['b']) ≠ (List.replicate 63 'a' ++ ['c']) ∧
    (List.replicate 63 'a' ++ ['b']).take 63 = (List.replicate 63 'a' ++ ['c']).take 63 ∧
    (setMaterialFloat
        (setMaterialFloat ⟨[], 0⟩ (List.replicate 63 'a' ++ ['b']) 1)
        (List.replicate 63 'a' ++ ['c']) 2).params.length = 2 := by
  decide

end R3D

namespace R3D

/-! ## Lemmas for user-code splitting and composition (C4) -/

theorem joinNl_cons (l : List Char) (ls : List (List Char)) :
    joinNl (l :: ls) = l ++ '\n' :: joinNl ls := by
  simp [joinNl]

theorem splitFold (ls : List (List Char)) (a b : List Char) :
    ls.foldl splitStep (a, b)
      = (a ++ joinNl (ls.filter isUniformLine),
         b ++ joinNl (ls.filter (fun l => !isUniformLine l && !l.isEmpty))) := by
  induction ls generalizing a b with
  | nil => simp [joinNl]
  | cons l rest ih =>
      by_cases hu : isUniformLine l
      · rw [List.foldl_cons, splitStep, if_pos hu, ih]
        simp [List.filter_cons, hu, joinNl_cons]
      · rcases eq_or_ne l [] with rfl | hne
        · rw [List.foldl_cons, splitStep, if_neg (by simp [hu]), if_neg (by simp), ih]
          simp [List.filter_cons, hu]
        · have hlen : 0 < l.length := List.length_pos.mpr hne
          rw [List.foldl_cons, splitStep, if_neg (by simp [hu]), if_pos hlen, ih]
          simp [List.filter_cons, hu, hne, joinNl_cons]

/-- C4 (amended): `R3D_CreateCustomShader`'s source construction splits the
user code line by line - a line goes to the declarations buffer exactly when,
after skipping leading spaces and tabs, it begins with the literal eight
characters `uniform` followed by a space ("uniform "); every other non-EMPTY
line (whitespace-only lines included) goes to the body buffer, each buffer
preserving relative line order - and composes the final fragment source as:
template up to and including the `#version` line, then the user
declarations, then template from after the `#version` line up to the marker
token, then the user body, then template after the marker. -/
theorem c4_split_and_compose (userCode base : List Char) (vi mi : Nat)
    (hv : findSub ("#version".toList) base = some vi)
    (hm : findSub USER_FRAGMENT_MARKER base = some mi)
    (_hvm : lineEndAfter base vi ≤ mi) :
    split_user_code userCode
      = (joinNl ((splitNl userCode).filter isUniformLine),
         joinNl ((splitNl userCode).filter (fun l => !isUniformLine l && !l.isEmpty))) ∧
    createComposedSource base userCode
      = some (base.take (lineEndAfter base vi)
          ++ joinNl ((splitNl userCode).filter isUniformLine)
          ++ (base.drop (lineEndAfter base vi)).take (mi - lineEndAfter base vi)
          ++ joinNl ((splitNl userCode).filter (fun l => !isUniformLine l && !l.isEmpty))
          ++ base.drop (mi + USER_FRAGMENT_MARKER.length)) := by
  have hsplit : split_user_code userCode
      = (joinNl ((splitNl userCode).filter isUniformLine),
         joinNl ((splitNl userCode).filter (fun l => !isUniformLine l && !l.isEmpty))) := by
    rw [split_user_code, splitFold]
    simp
  refine ⟨hsplit, ?_⟩
  rw [createComposedSource, hsplit]
  simp only [compose_fragment_shader, hv, hm]
  try simp [List.append_assoc]

/-- C4 witness: the split/compose characterisation on a concrete template
and user source. -/
theorem c4_split_and_compose_witness :
    findSub ("#version".toList)
        ("#version 330\nMID\n#define R3D_USER_FRAGMENT_MARKER 0\nPOST\n".toList)
      = some 0 ∧
    findSub USER_FRAGMENT_MARKER
        ("#version 330\nMID\n#define R3D_USER_FRAGMENT_MARKER 0\nPOST\n".toList)
      = some 17 ∧
    lineEndAfter
        ("#version 330\nMID\n#define R3D_USER_FRAGMENT_MARKER 0\nPOST\n".toList) 0 ≤ 17 ∧
    split_user_code ("uniform float u;\nALBEDO;\n".toList)
      = (joinNl (((splitNl ("uniform float u;\nALBEDO;\n".toList))).filter isUniformLine),
         joinNl (((splitNl ("uniform float u;\nALBEDO;\n".toList))).filter
           (fun l => !isUniformLine l && !l.isEmpty))) :=
  ⟨by decide, by decide, by decide,
   (c4_split_and_compose ("uniform float u;\nALBEDO;\n".toList)
      ("#version 330\nMID\n#define R3D_USER_FRAGMENT_MARKER 0\nPOST\n".toList) 0 17
      (by decide) (by decide) (by decide)).1⟩

/-- C4 counterexample to the claim as stated: the line `uniform<TAB>float x;`
has `uniform` as its first non-whitespace token, yet `split_user_code`
routes it to the BODY buffer (the code requires a literal space after the
keyword), leaving the declarations buffer empty. -/
theorem c4_counterexample :
    specFirstTokenIsUniform ("uniform\tfloat x;".toList) = true ∧
    (split_user_code ("uniform\tfloat x;".toList)).1 = [] ∧
    (split_user_code ("uniform\tfloat x;".toList)).2 = "uniform\tfloat x;\n".toList := by
  decide

end R3D

namespace R3D

/-- C5 (amended): at submission, the cheaply checkable guards of
`R3D_DrawMeshInstancedPro` make a zero instance count or a null
instance-transform pointer a complete no-op (nothing enqueued, no fault);
but a null MATERIAL is not a no-op - it is replaced by the default material
and the draw is still enqueued - and a null MESH is not checked at all: both
entry points dereference it (undefined behaviour, modelled as a fault). -/
theorem c5_submission_guards (layerOK : Nat → Bool) (m : r3d_mesh)
    (mat : Option R3D_Material) (tf : Nat) (aabb : Option Nat) (gtf : Nat)
    (tr : Option Nat) (cnt : Int) (st : DrawState) :
    drawMeshInstancedPro layerOK (some m) mat aabb gtf tr 0 st = some st ∧
    drawMeshInstancedPro layerOK (some m) mat aabb gtf none cnt st = some st ∧
    drawMesh layerOK none mat tf st = none ∧
    drawMeshInstancedPro layerOK none mat aabb gtf tr cnt st = none ∧
    (layerOK m.layerMask = true →
      drawMesh layerOK (some m) none tf st
        = some (pushCall (pushGroup st { transform := tf }) m defaultMaterial false)) := by
  refine ⟨?_, ?_, rfl, rfl, ?_⟩
  · by_cases h : layerOK m.layerMask <;> simp [drawMeshInstancedPro, h]
  · by_cases h : layerOK m.layerMask <;> simp [drawMeshInstancedPro, h]
  · intro h
    simp [drawMesh, h]

/-- C5 witness: the guard characterisation applied at a concrete mesh,
state and layer predicate. -/
theorem c5_submission_guards_witness :
    (fun _ : Nat => true) ((r3d_mesh.mk 1 0).layerMask) = true ∧
    drawMesh (fun _ => true) (some ⟨1, 0⟩) none 0 ⟨[], []⟩
      = some (pushCall (pushGroup ⟨[], []⟩ { transform := 0 }) ⟨1, 0⟩ defaultMaterial false) :=
  ⟨by decide,
   (c5_submission_guards (fun _ => true) ⟨1, 0⟩ none 0 none 0 none 0 ⟨[], []⟩).2.2.2.2
     (by decide)⟩

/-- C5 counterexample to the claim as stated: a null material is NOT treated
as a no-op by `R3D_DrawMesh` - a draw group and a draw call (with the
default material) are enqueued; and a null mesh is not a checked no-op
either - the mesh pointer is dereferenced before any guard (a fault, not a
clean return). -/
theorem c5_counterexample :
    drawMesh (fun _ => true) (some ⟨1, 0⟩) none 0 ⟨[], []⟩ ≠ some ⟨[], []⟩ ∧
    (drawMesh (fun _ => true) (some ⟨1, 0⟩) none 0 ⟨[], []⟩).map
        (fun s => (s.groups.length, s.calls.length)) = some (1, 1) ∧
    drawMesh (fun _ => true) none (some defaultMaterial) 0 ⟨[], []⟩ = none := by
  decide

/-! ## Lemmas for the model mesh loop (C9) -/

theorem drawModelLoop_takeWhile (layerOK : Nat → Bool) (mats : List R3D_Material)
    (ps : List (r3d_mesh × Nat)) (st : DrawState) :
    drawModelLoop layerOK mats ps st
      = { groups := st.groups,
          calls := st.calls
            ++ (ps.takeWhile (fun q => layerOK q.1.layerMask)).map
                (fun q => ⟨q.1, mats.getD q.2 defaultMaterial, st.groups.length - 1, false⟩) } := by
  induction ps generalizing st with
  | nil => simp [drawModelLoop]
  | cons q rest ih =>
      by_cases hq : layerOK q.1.layerMask
      · rw [drawModelLoop, if_neg (by simp [hq]), ih]
        simp [pushCall, List.takeWhile_cons, hq]
      · rw [drawModelLoop, if_pos (by simp [hq])]
        simp [List.takeWhile_cons, hq]

/-- C9: `R3D_DrawModelPro` (and the instanced variant past its guards)
pushes the draw group and then draw calls for exactly the longest prefix of
meshes whose layer masks pass the visibility test: at the first mesh whose
layer is not enabled the function returns - no call is pushed for that mesh
nor for any later mesh, even one whose layer is enabled, while the group and
the earlier meshes' calls remain submitted. -/
theorem c9_model_loop_early_return (layerOK : Nat → Bool) (model : r3d_model)
    (tf : Nat) (st : DrawState) :
    (drawModelPro layerOK model tf st
      = { groups := st.groups
            ++ [{ transform := tf, aabb := model.modelAabb,
                  skeleton := model.skeleton, player := model.player }],
          calls := st.calls
            ++ (((model.meshes.zip model.meshMaterials).takeWhile
                  (fun q => layerOK q.1.layerMask)).map
                (fun q => ⟨q.1, model.materials.getD q.2 defaultMaterial,
                  st.groups.length, false⟩)) }) ∧
    (∀ i q, (model.meshes.zip model.meshMaterials)[i]? = some q →
      layerOK q.1.layerMask = false →
      (drawModelPro layerOK model tf st).calls.length ≤ st.calls.length + i) ∧
    (∀ (aabb : Option Nat) (gtf : Nat) (tr : Nat) (cnt : Int),
      cnt ≠ 0 → model.meshes.length ≠ 0 →
      drawModelInstancedPro layerOK (some model) aabb gtf (some tr) cnt st
        = { groups := st.groups
              ++ [{ transform := gtf, aabb := model.modelAabb,
                    skeleton := model.skeleton, player := model.player,
                    instAabb := aabb.getD 0, instTransforms := some tr,
                    instCount := cnt }],
            calls := st.calls
              ++ (((model.meshes.zip model.meshMaterials).takeWhile
                    (fun q => layerOK q.1.layerMask)).map
                  (fun q => ⟨q.1, model.materials.getD q.2 defaultMaterial,
                    st.groups.length, false⟩)) }) := by
  have hmain : drawModelPro layerOK model tf st
      = { groups := st.groups
            ++ [{ transform := tf, aabb := model.modelAabb,
                  skeleton := model.skeleton, player := model.player }],
          calls := st.calls
            ++ (((model.meshes.zip model.meshMaterials).takeWhile
                  (fun q => layerOK q.1.layerMask)).map
                (fun q => ⟨q.1, model.materials.getD q.2 defaultMaterial,
                  st.groups.length, false⟩)) } := by
    rw [drawModelPro, drawModelLoop_takeWhile]
    simp [pushGroup]
  refine ⟨hmain, ?_, ?_⟩
  · intro i q hq hfail
    rw [hmain]
    have := takeWhile_length_le_of_fail (p := fun q => layerOK q.1.layerMask) hq
      (by simp [hfail])
    simp only [List.length_append, List.length_map]
    omega
  · intro aabb gtf tr cnt hcnt hmesh
    rw [drawModelInstancedPro]
    rw [if_neg (by simp [hcnt, hmesh]), drawModelLoop_takeWhile]
    simp [pushGroup]

/-- C9 witness: a three-mesh model whose second mesh is on a disabled layer;
only the first mesh's call is submitted, the third (enabled) mesh is
abandoned, the group stays. -/
theorem c9_model_loop_early_return_witness :
    ((r3d_model.mk [⟨1, 10⟩, ⟨2, 11⟩, ⟨1, 12⟩] [0, 0, 0] [⟨[], 0⟩] 0 0 0).meshes.zip
        (r3d_model.mk [⟨1, 10⟩, ⟨2, 11⟩, ⟨1, 12⟩] [0, 0, 0] [⟨[], 0⟩] 0 0 0).meshMaterials)[1]?
      = some (⟨2, 11⟩, 0) ∧
    (fun mask : Nat => mask == 1) ((r3d_mesh.mk 2 11).layerMask) = false ∧
    (drawModelPro (fun mask => mask == 1)
        (r3d_model.mk [⟨1, 10⟩, ⟨2, 11⟩, ⟨1, 12⟩] [0, 0, 0] [⟨[], 0⟩] 0 0 0) 0
        ⟨[], []⟩).calls.length ≤ (DrawState.mk [] []).calls.length + 1 :=
  ⟨by decide, by decide,
   (c9_model_loop_early_return (fun mask => mask == 1)
      (r3d_model.mk [⟨1, 10⟩, ⟨2, 11⟩, ⟨1, 12⟩] [0, 0, 0] [⟨[], 0⟩] 0 0 0) 0
      ⟨[], []⟩).2.1 1 (⟨2, 11⟩, 0) (by decide) (by decide)⟩

end R3D

namespace R3D

/-! ## Lemmas for the `R3D_End` pass order (C1) -/

theorem sub_ite_pos {α : Type} (b : Bool) (l : List α) :
    (if b then l else []).Sublist l := by
  cases b
  · exact List.nil_sublist l
  · exact List.Sublist.refl l

theorem sub_ite_neg {α : Type} (b : Bool) (l : List α) :
    (if b then [] else l).Sublist l := by
  cases b
  · exact List.Sublist.refl l
  · exact List.nil_sublist l

theorem deferredSeg_sublist (f : EndFlags) :
    (deferredSeg f).Sublist (deferredSeg allFlags) := by
  rw [deferredSeg]
  by_cases h : f.hasDeferred
  · rw [if_pos h]
    exact List.Sublist.cons₂ _
      (List.Sublist.append
        (List.Sublist.append
          (List.Sublist.append
            (List.Sublist.append
              (List.Sublist.append (sub_ite_pos _ _) (sub_ite_pos _ _))
              (sub_ite_pos _ _))
            (sub_ite_pos _ _))
          (sub_ite_pos _ _))
        (List.Sublist.refl _))
  · rw [if_neg h]
    exact List.nil_sublist _

theorem forwardSeg_sublist (f : EndFlags) :
    (forwardSeg f).Sublist (forwardSeg allFlags) := by
  rw [forwardSeg]
  by_cases h : (f.hasForward || f.hasPrepass) = true
  · rw [if_pos h]
    exact List.Sublist.append (sub_ite_pos _ _) (List.Sublist.refl _)
  · rw [if_neg h]
    exact List.nil_sublist _

theorem postSeg_sublist (f : EndFlags) :
    (postSeg f).Sublist (postSeg allFlags) :=
  List.Sublist.append
    (List.Sublist.append
      (List.Sublist.append
        (List.Sublist.append (sub_ite_pos _ _) (sub_ite_pos _ _))
        (sub_ite_pos _ _))
      (List.Sublist.refl _))
    (sub_ite_pos _ _)

theorem endTrace_sublist (f : EndFlags) :
    (endTrace f).Sublist (endTrace allFlags) :=
  List.Sublist.append
    (List.Sublist.cons₂ _
      (List.Sublist.append
        (List.Sublist.append
          (List.Sublist.append
            (List.Sublist.append
              (List.Sublist.append
                (List.Sublist.append (sub_ite_neg _ _) (sub_ite_pos _ _))
                (sub_ite_pos _ _))
              (deferredSeg_sublist f))
            (List.Sublist.refl _))
          (forwardSeg_sublist f))
        (postSeg_sublist f)))
    (List.Sublist.refl _)

/-- C1: every `R3D_End` call issues its passes in the fixed order of the
spec's state machine - the pass trace is strictly increasing in the state
machine's rank, so no pass is ever issued before one of its predecessors;
the trace always starts with the shadow pass and ends with the final blit;
and the G-buffer geometry pass (opening the geometry → decals → SSAO →
lighting → SSIL → SSR → ambient → compose block) runs exactly when a
deferred draw call exists. -/
theorem c1_end_pass_order (f : EndFlags) :
    (endTrace f).Pairwise (fun a b => passRank a < passRank b) ∧
    (endTrace f).head? = some .shadow ∧
    (endTrace f).getLast? = some .blit ∧
    (PassKind.geometry ∈ endTrace f ↔ f.hasDeferred = true) := by
  refine ⟨List.Pairwise.sublist (endTrace_sublist f) (by decide), rfl,
    List.getLast?_concat _, ?_⟩
  simp [endTrace, deferredSeg, forwardSeg, postSeg, List.mem_ite_nil_right,
    List.mem_ite_nil_left]

end R3D
